import Mathlib

/-!
Verification development for the pydatajson indicator and reconciliation
engine (`pydatajson/indicators.py` and `pydatajson/federation.py`).

Python dictionaries parsed from `data.json` catalogs are embedded as a
JSON-like `Value` type; Python float arithmetic on percentages is embedded
exactly over `ℚ`; a raised exception (KeyError, ZeroDivisionError,
TypeError, IndexError) is embedded as `Option.none`.  Helper functions
living in modules that are not part of the two source files
(`helpers.py`, `readers.py`) are modelled from the specification and say
so in their doc comments.
-/

/-- Python's `round(x, 2)` over exact rationals: round to two decimal
places.  Ties are modelled round-half-up (CPython rounds half to even on
binary floats; no statement below exercises a tie). -/
def round2 (q : ℚ) : ℚ := ((⌊q * 100 + 1 / 2⌋ : ℤ) : ℚ) / 100


/-- A JSON-like value, the shape of everything read from a `data.json`
catalog.  `null` is Python's `None`. -/
inductive Value where
  | null : Value
  | str (s : String) : Value
  | int (n : Int) : Value
  | arr (xs : List Value) : Value
  | obj (kvs : List (String × Value)) : Value

mutual
def Value.beq : Value → Value → Bool
  | .null, .null => true
  | .str a, .str b => a == b
  | .int a, .int b => a == b
  | .arr xs, .arr ys => Value.beqList xs ys
  | .obj xs, .obj ys => Value.beqKVs xs ys
  | _, _ => false
def Value.beqList : List Value → List Value → Bool
  | [], [] => true
  | x :: xs, y :: ys => Value.beq x y && Value.beqList xs ys
  | _, _ => false
def Value.beqKVs : List (String × Value) → List (String × Value) → Bool
  | [], [] => true
  | (k, v) :: xs, (k2, v2) :: ys => k == k2 && Value.beq v v2 && Value.beqKVs xs ys
  | _, _ => false
end

mutual
theorem Value.beq_iff : ∀ a b : Value, (Value.beq a b = true ↔ a = b)
  | .null, b => by cases b <;> simp [Value.beq]
  | .str s, b => by cases b <;> simp [Value.beq]
  | .int n, b => by cases b <;> simp [Value.beq]
  | .arr xs, b => by
      cases b <;> simp [Value.beq]
      exact Value.beqList_iff xs _
  | .obj xs, b => by
      cases b <;> simp [Value.beq]
      exact Value.beqKVs_iff xs _
theorem Value.beqList_iff : ∀ xs ys : List Value, (Value.beqList xs ys = true ↔ xs = ys)
  | [], ys => by cases ys <;> simp [Value.beqList]
  | x :: xs, ys => by
      cases ys <;> simp [Value.beqList]
      rw [Value.beq_iff, Value.beqList_iff]
theorem Value.beqKVs_iff : ∀ xs ys : List (String × Value), (Value.beqKVs xs ys = true ↔ xs = ys)
  | [], ys => by cases ys <;> simp [Value.beqKVs]
  | (k, v) :: xs, ys => by
      cases ys <;> simp [Value.beqKVs]
      rename_i p tl
      obtain ⟨k2, v2⟩ := p
      rw [Value.beq_iff, Value.beqKVs_iff]
      simp [Prod.ext_iff, and_assoc]
end

instance : DecidableEq Value := fun a b =>
  if h : Value.beq a b = true then .isTrue ((Value.beq_iff a b).mp h)
  else .isFalse (fun he => h ((Value.beq_iff a b).mpr he))

/-- Python `d.get(k)` distinguished from a present `None`: `none` means the
key is absent (or the value is not a mapping at all). -/
def Value.getKey : Value → String → Option Value
  | .obj kvs, k => (kvs.find? (fun p => p.1 == k)).map Prod.snd
  | _, _ => none

/-- Python `k in d` (key presence in a mapping). -/
def Value.hasKey (v : Value) (k : String) : Bool := (v.getKey k).isSome

/-- Python `d.get(k)` with its default of `None`: an absent key yields
`null`, which is how the matcher's comparisons observe it. -/
def Value.getD (v : Value) (k : String) : Value := (v.getKey k).getD .null

/-- One segment of a nested lookup path: a mapping key or a list index. -/
inductive PathKey where
  | str (s : String) : PathKey
  | idx (n : Nat) : PathKey
deriving DecidableEq

/-- Modelled from the spec: `helpers.traverse_dict` is not under `src/`.
Nested-path lookup that returns the caller-supplied default (here Python's
`None`, i.e. `null`) when any path segment is missing, a list index is out
of range, or the segment kind does not match the container. -/
def traverse_dict : Value → List PathKey → Value
  | v, [] => v
  | .obj kvs, .str k :: rest => traverse_dict ((Value.obj kvs).getD k) rest
  | .arr xs, .idx i :: rest => traverse_dict ((xs.get? i).getD .null) rest
  | _, _ :: _ => .null

/-! ### Field Usage Counter (`_count_fields_recursive`) -/

/-- The three requirement labels a schema leaf can carry. -/
inductive Requirement where
  | requerido | recomendado | optativo
deriving DecidableEq

/-- A field-requirement schema entry: a leaf label or a nested schema
(the source detects the two shapes by the runtime type of the value). -/
inductive FieldRule where
  | leaf (r : Requirement) : FieldRule
  | nested (m : List (String × FieldRule)) : FieldRule

/-- The tally returned by `_count_fields_recursive`. -/
structure KeyCount where
  recomendado : Nat := 0
  optativo : Nat := 0
  requerido : Nat := 0
  total_optativo : Nat := 0
  total_recomendado : Nat := 0
  total_requerido : Nat := 0
deriving DecidableEq

/-- Key-by-key sum of two tallies (the `key_count[key] += result[key]`
loop in the source). -/
def KeyCount.add (a b : KeyCount) : KeyCount :=
  ⟨a.recomendado + b.recomendado, a.optativo + b.optativo, a.requerido + b.requerido,
   a.total_optativo + b.total_optativo, a.total_recomendado + b.total_recomendado,
   a.total_requerido + b.total_requerido⟩

/-- Resolution of a nested-schema key against the record: a list is used
as is, a mapping becomes a one-element list, anything else (missing key or
wrongly-typed value) becomes `[{}]`. -/
def elementsAt (dataset : Value) (k : String) : List Value :=
  match dataset.getKey k with
  | some (.arr xs) => xs
  | some (.obj kvs) => [.obj kvs]
  | _ => [.obj []]

/-- The leaf case of the counter: bump `total_<label>` unconditionally and
`<label>` when the key is present in the record. -/
def leafCount (dataset : Value) (k : String) (r : Requirement) : KeyCount :=
  let base : KeyCount :=
    match r with
    | .requerido => { total_requerido := 1 }
    | .recomendado => { total_recomendado := 1 }
    | .optativo => { total_optativo := 1 }
  if dataset.hasKey k then
    match r with
    | .requerido => { base with requerido := 1 }
    | .recomendado => { base with recomendado := 1 }
    | .optativo => { base with optativo := 1 }
  else base

mutual
def count_fields_recursive (dataset : Value) : List (String × FieldRule) → KeyCount
  | [] => {}
  | (k, .leaf r) :: rest =>
      (leafCount dataset k r).add (count_fields_recursive dataset rest)
  | (k, .nested m) :: rest =>
      (countElems (elementsAt dataset k) m).add (count_fields_recursive dataset rest)
termination_by fs => (sizeOf fs, 0)
def countElems : List Value → List (String × FieldRule) → KeyCount
  | [], _ => {}
  | e :: es, m => (count_fields_recursive e m).add (countElems es m)
termination_by es m => (sizeOf m + 1, sizeOf es)
end

/-- The record has no sequence at any key the schema treats as nested,
recursively: under this condition every nested key contributes exactly one
recursive pass. -/
def seqFree (d : Value) : List (String × FieldRule) → Bool
  | [] => true
  | (_, .leaf _) :: rest => seqFree d rest
  | (k, .nested m) :: rest =>
      (match d.getKey k with
       | some (.arr _) => false
       | some (.obj kvs) => seqFree (.obj kvs) m
       | _ => true) && seqFree d rest
termination_by fs => sizeOf fs

/-- The three `total_*` counters of a tally. -/
def KeyCount.totals (kc : KeyCount) : Nat × Nat × Nat :=
  (kc.total_requerido, kc.total_recomendado, kc.total_optativo)

/-! ### Dataset Matcher (`datasets_equal`) -/

/-- A configured comparison field: a plain key or a nested path (the
source distinguishes them by `isinstance(field, list)`). -/
inductive FieldSel where
  | key (k : String) : FieldSel
  | path (p : List PathKey) : FieldSel
deriving DecidableEq

/-- Resolution of a configured field on a record: plain keys through
`get` (default `None`), paths through `traverse_dict`. -/
def field_value (v : Value) (f : FieldSel) : Value :=
  match f with
  | .key k => v.getD k
  | .path p => traverse_dict v p

/-- Where a diff entry points: a dataset field, or a distribution field
tagged with the distribution's title (the source formats the tag into a
string; the components are kept here). -/
inductive DiffLoc where
  | field (f : FieldSel) : DiffLoc
  | distField (f : FieldSel) (title : Value) : DiffLoc
deriving DecidableEq

/-- One diff entry: `error_location`, `dataset_value`, `other_value`. -/
structure DiffEntry where
  error_location : DiffLoc
  dataset_value : Value
  other_value : Value
deriving DecidableEq

/-- One step of the field-comparison loop: equal values leave the
accumulator alone, unequal values append a diff entry and clear the
match flag. -/
def fields_step (mkLoc : FieldSel → DiffLoc) (a b : Value)
    (acc : Bool × List DiffEntry) (f : FieldSel) : Bool × List DiffEntry :=
  let value := field_value a f
  let other_value := field_value b f
  if value = other_value then acc
  else (false, acc.2 ++ [⟨mkLoc f, value, other_value⟩])

/-- The default identity fields: `title` and the nested
`publisher.name`. -/
def default_fields_dataset : List FieldSel :=
  [.key "title", .path [.str "publisher", .str "name"]]

/-- `datasets_equal`, full signature: compares the configured dataset
fields, then — only when distribution fields are configured — zips the two
`distribution` sequences pairwise.  Returns the pair (match flag, diff
list); `none` embeds the `TypeError` the source raises when a compared
record's `distribution` value is not a sequence.  A distribution-length
mismatch clears the match flag without appending any diff entry, exactly
as in the source. -/
def datasets_equal_core (dataset other : Value) (fields_dataset : List FieldSel)
    (fields_distribution : List FieldSel) : Option (Bool × List DiffEntry) :=
  let acc0 := fields_dataset.foldl (fields_step .field dataset other) (true, [])
  if fields_distribution.isEmpty then some acc0
  else
    match dataset.getKey "distribution", other.getKey "distribution" with
    | some (.arr ds), some (.arr os) =>
      let eq1 := if ds.length ≠ os.length then false else acc0.1
      let zipped := (ds.zip os).foldl
        (fun acc p => fields_distribution.foldl
          (fields_step (fun f => .distField f (p.1.getD "title")) p.1 p.2) acc)
        (true, acc0.2)
      some (if zipped.1 then eq1 else false, zipped.2)
    | _, _ => none

/-- `datasets_equal` as the reconciler calls it: default dataset fields,
no distribution fields, `return_diff=False`.  With no distribution fields
the core cannot fail, so the boolean is extracted directly. -/
def datasets_equal (dataset other : Value) : Bool :=
  (default_fields_dataset.foldl (fields_step .field dataset other) (true, [])).1

/-- `datasets_equal(..., return_diff=True)`: the diff list. -/
def datasets_equal_diff (dataset other : Value) (fields_dataset fields_distribution : List FieldSel) :
    Option (List DiffEntry) :=
  (datasets_equal_core dataset other fields_dataset fields_distribution).map Prod.snd

/-- `datasets_equal(..., return_diff=False)` with explicit field lists:
the boolean match result. -/
def datasets_equal_matches (dataset other : Value) (fields_dataset fields_distribution : List FieldSel) :
    Option Bool :=
  (datasets_equal_core dataset other fields_dataset fields_distribution).map Prod.fst

/-! ### Federation Reconciler (`_federation_indicators`,
`_filter_by_likely_publisher`) -/

/-- Containment of the literal `"name"` in a character list (Python's
substring test `"name" in s` for a string `s`). -/
def name_in_chars : List Char → Bool
  | [] => false
  | c :: cs => ("name".toList.isPrefixOf (c :: cs)) || name_in_chars cs

/-- Python's guard-and-subscript on one dataset's `publisher` value:
`"name" in pub`, followed (when the guard holds) by `pub["name"]`.  A
mapping is tested for the key and subscripted.  For a string the guard is
substring containment and for a list it is membership, and in both cases
a true guard makes the subscript raise `TypeError`; `None` or a number
raises `TypeError` at the `in` test itself.  `none` embeds the raised
exception, `some none` a false guard (dataset skipped), `some (some v)`
the extracted name. -/
def publisher_name_of : Value → Option (Option Value)
  | .obj kvs =>
      match (Value.obj kvs).getKey "name" with
      | some v => some (some v)
      | none => some none
  | .str s => if name_in_chars s.toList then none else some none
  | .arr xs => if Value.str "name" ∈ xs then none else some none
  | _ => none

/-- The publisher names of the local catalog's datasets.  Every dataset is
subscripted `["publisher"]` unconditionally, so a dataset with no
`publisher` key raises `KeyError` (`none`); the guard and subscript on the
publisher value follow `publisher_name_of`, raising `TypeError` on a
present non-mapping publisher whose guard holds. -/
def publisher_names (catalog_datasets : List Value) : Option (List Value) :=
  catalog_datasets.foldr (fun d acc => do
    let names ← acc
    let pub ← d.getKey "publisher"
    match publisher_name_of pub with
    | some (some nv) => pure (nv :: names)
    | some none => pure names
    | none => none) (some [])

/-- The loop over central datasets in `_filter_by_likely_publisher`:
every central dataset is subscripted `["publisher"]` unconditionally
(`KeyError` on a missing key), and its publisher value goes through the
same guard-and-subscript as the local side. -/
def filter_central_fold (names : List Value) (central_datasets : List Value) :
    Option (List Value) :=
  central_datasets.foldr (fun c acc => do
    let l ← acc
    let pub ← c.getKey "publisher"
    match publisher_name_of pub with
    | some (some nv) => if nv ∈ names then pure (c :: l) else pure l
    | some none => pure l
    | none => none) (some [])

/-- The dataset's `publisher` key is present and holds a mapping — the
condition under which the pre-filter cannot raise on this dataset. -/
def has_publisher_mapping (d : Value) : Bool :=
  match d.getKey "publisher" with
  | some (.obj _) => true
  | _ => false

/-- `_filter_by_likely_publisher`: keep the central datasets whose
`publisher.name` appears among the local catalog's publisher names.  Both
sides subscript `["publisher"]` unconditionally, so a missing `publisher`
key on either side raises `KeyError` (`none`). -/
def filter_by_likely_publisher (central_datasets catalog_datasets : List Value) :
    Option (List Value) := do
  let names ← publisher_names catalog_datasets
  filter_central_fold names central_datasets

/-- The `(title, landingPage)` display tuple recorded per dataset. -/
def title_landing (d : Value) : Value × Value := (d.getD "title", d.getD "landingPage")

/-- The record produced by `_federation_indicators`. -/
structure FedIndicators where
  datasets_federados_cant : Nat
  datasets_no_federados_cant : Nat
  datasets_federados_eliminados_cant : Nat
  datasets_federados_eliminados : List (Value × Value)
  datasets_no_federados : List (Value × Value)
  datasets_federados : List (Value × Value)
  datasets_federados_pct : ℚ
deriving DecidableEq

/-- `_federation_indicators`.  The forward pass scans the central catalog
in order and stops at the first match; since only the per-dataset verdict
and the local tuples are recorded, the break-at-first-match loop is
embedded as `List.any`.  The deletion pass runs on the publisher-filtered
central datasets; `none` embeds the `KeyError` escaping from the
filter. -/
def federation_indicators (catalog central_catalog : List Value) : Option FedIndicators :=
  let federados_list := catalog.filter (fun d => central_catalog.any (fun c => datasets_equal d c))
  let no_federados_list :=
    catalog.filter (fun d => !(central_catalog.any (fun c => datasets_equal d c)))
  match filter_by_likely_publisher central_catalog catalog with
  | none => none
  | some filtered_central =>
    let eliminados := filtered_central.filter (fun c => !(catalog.any (fun d => datasets_equal d c)))
    let federados := federados_list.length
    let no_federados := no_federados_list.length
    let federados_pct : ℚ :=
      if federados + no_federados = 0 then 0
      else 100 * (federados : ℚ) / ((federados : ℚ) + (no_federados : ℚ))
    some {
      datasets_federados_cant := federados,
      datasets_no_federados_cant := no_federados,
      datasets_federados_eliminados_cant := eliminados.length,
      datasets_federados_eliminados := eliminados.map title_landing,
      datasets_no_federados := no_federados_list.map title_landing,
      datasets_federados := federados_list.map title_landing,
      datasets_federados_pct := round2 federados_pct }

/-! ### Freshness Evaluator (`_generate_date_indicators`,
`_days_from_last_update`) -/

/-- The date-bearing fields of a dataset, as the freshness code reads
them.  A date is embedded already parsed, as days since an epoch; `none`
is an absent (or, per the spec's malformed-date rule, unparseable)
field.  `helpers.parse_date_string` is not under `src/`. -/
structure FDataset where
  accrualPeriodicity : Option String := none
  modified : Option Int := none
  issued : Option Int := none
deriving DecidableEq

/-- The date-bearing fields of a catalog. -/
structure FCatalog where
  modified : Option Int := none
  issued : Option Int := none
  dataset : List FDataset := []
deriving DecidableEq

/-- The metadata field scanned by one pass of `_days_from_last_update`. -/
inductive DField where
  | modified | issued
deriving DecidableEq

def FCatalog.fieldDate (c : FCatalog) : DField → Option Int
  | .modified => c.modified
  | .issued => c.issued

def FDataset.fieldDate (d : FDataset) : DField → Option Int
  | .modified => d.modified
  | .issued => d.issued

/-- Python truthiness of the running `dias_ultima_actualizacion` value:
falsy when it is `None` or `0`. -/
def optFalsy : Option Int → Bool
  | none => true
  | some v => v == 0

/-- `_days_from_last_update`: seed with the catalog-level date (skipped
when not a string, i.e. absent), then fold the datasets with the source's
`if not dias or (days_diff and days_diff < dias)` update, and finally
return `int(dias)` when `dias` is truthy, else `None`. -/
def days_from_last_update (now : Int) (catalog : FCatalog) (date_field : DField) : Option Int :=
  let start : Option Int := (catalog.fieldDate date_field).map (fun d => now - d)
  let dias := catalog.dataset.foldl (fun dias ds =>
    let days_diff : Option Int := (ds.fieldDate date_field).map (fun d => now - d)
    if optFalsy dias then days_diff
    else
      match days_diff, dias with
      | some dd, some v => if dd ≠ 0 ∧ dd < v then some dd else some v
      | _, _ => dias) start
  match dias with
  | some v => if v = 0 then none else some v
  | none => none

/-- The catalog-level indicator: a `modified` pass, falling back to an
`issued` pass when the first result is falsy. -/
def catalogo_ultima_actualizacion_dias (now : Int) (catalog : FCatalog) : Option Int :=
  let dias := days_from_last_update now catalog .modified
  if optFalsy dias then days_from_last_update now catalog .issued else dias

/-- Modelled from the spec, for comparison with the source: the days since
the most recent resolvable date — the catalog's own date and every
dataset's date in a `modified` pass, falling back to an `issued` pass only
when the whole first pass found nothing; `none` exactly when no date is
resolvable anywhere. -/
def spec_last_update_days (now : Int) (c : FCatalog) : Option Int :=
  let pass := fun (f : DField) =>
    (c.fieldDate f).toList ++ c.dataset.filterMap (fun d => d.fieldDate f)
  let dates := if (pass .modified).isEmpty then pass .issued else pass .modified
  (dates.map (fun d => now - d)).min?

/-- Bump of the periodicity histogram
(`periodicity_amount[p] = periodicity_amount.get(p, 0) + 1`). -/
def bump : List (String × Nat) → String → List (String × Nat)
  | [], k => [(k, 1)]
  | (k2, n) :: rest, k => if k2 = k then (k2, n + 1) :: rest else (k2, n) :: bump rest k

/-- The classification loop of `_generate_date_indicators`: skip datasets
with a falsy `accrualPeriodicity`; `eventual` is always current; a dataset
with no `modified` key is stale; otherwise compare the float day
difference against `interval * (1 + tolerance)`.
`helpers.parse_repeating_time_interval` is not under `src/` and is taken
as the argument `pint`.  Returns (actualizados, desactualizados,
histogram). -/
def date_classify (now : Int) (tolerance : ℚ) (pint : String → ℚ) (ds : List FDataset) :
    Nat × Nat × List (String × Nat) :=
  ds.foldl (fun acc d =>
    match d.accrualPeriodicity with
    | none => acc
    | some periodicity =>
      if periodicity = "" then acc
      else if periodicity = "eventual" then (acc.1 + 1, acc.2.1, bump acc.2.2 periodicity)
      else
        match d.modified with
        | none => (acc.1, acc.2.1 + 1, bump acc.2.2 periodicity)
        | some date =>
          let days_diff : ℚ := ((now - date : Int) : ℚ)
          let interval := pint periodicity * (1 + tolerance)
          if days_diff < interval then (acc.1 + 1, acc.2.1, bump acc.2.2 periodicity)
          else (acc.1, acc.2.1 + 1, bump acc.2.2 periodicity)) (0, 0, [])

/-- The record produced by `_generate_date_indicators`. -/
structure DateIndicators where
  catalogo_ultima_actualizacion_dias : Option Int
  datasets_desactualizados_cant : Nat
  datasets_actualizados_cant : Nat
  datasets_actualizados_pct : ℚ
  datasets_frecuencia_cant : List (String × Nat)
deriving DecidableEq

/-- `_generate_date_indicators`.  Note the percentage: the ratio
`actualizados / len(dataset)` is rounded to two decimals and then
multiplied by 100. -/
def generate_date_indicators (now : Int) (tolerance : ℚ) (pint : String → ℚ)
    (catalog : FCatalog) : DateIndicators :=
  let acc := date_classify now tolerance pint catalog.dataset
  let datasets_total := catalog.dataset.length
  let actualizados_pct : ℚ :=
    if datasets_total = 0 then 0 else (acc.1 : ℚ) / (datasets_total : ℚ)
  { catalogo_ultima_actualizacion_dias := catalogo_ultima_actualizacion_dias now catalog,
    datasets_desactualizados_cant := acc.2.1,
    datasets_actualizados_cant := acc.1,
    datasets_actualizados_pct := 100 * round2 actualizados_pct,
    datasets_frecuencia_cant := acc.2.2 }

/-- Modelled from the spec (the formula claimed for
`datasets_actualizados_pct`), for comparison with the source:
actualizados over the count of datasets having an `accrualPeriodicity`,
times 100, rounded to two decimals; 0 when that denominator is 0. -/
def spec_datasets_actualizados_pct (now : Int) (tolerance : ℚ) (pint : String → ℚ)
    (catalog : FCatalog) : ℚ :=
  let act := (date_classify now tolerance pint catalog.dataset).1
  let with_periodicity := (catalog.dataset.filter (fun d => d.accrualPeriodicity.isSome)).length
  if with_periodicity = 0 then 0
  else round2 (100 * (act : ℚ) / (with_periodicity : ℚ))

/-! ### Indicator Aggregator (`_generate_indicators`,
`generate_catalogs_indicators`, `_network_indicator_percentages`) -/

/-- The recommended/optional usage percentages computed in
`_generate_indicators`: both divisions are unguarded, so a tally with a
zero `total_recomendado` or `total_optativo` raises `ZeroDivisionError`
(`none`). -/
def catalog_fields_pcts (fields_count : KeyCount) : Option (ℚ × ℚ) :=
  if fields_count.total_recomendado = 0 then none
  else if fields_count.total_optativo = 0 then none
  else some
    (round2 (100 * (fields_count.recomendado : ℚ) / (fields_count.total_recomendado : ℚ)),
     round2 (100 * (fields_count.optativo : ℚ) / (fields_count.total_optativo : ℚ)))

/-- The numeric slice of a per-catalog indicator record that the network
fold touches.  The list- and histogram-valued keys of the real record do
not feed any network percentage and are omitted; the federation keys are
always present because `generate_catalogs_indicators` replaces a missing
central catalog by its built-in default URL. -/
structure IndicatorRecord where
  datasets_cant : Nat := 0
  datasets_meta_ok_cant : Nat := 0
  datasets_meta_error_cant : Nat := 0
  datasets_meta_ok_pct : ℚ := 0
  datasets_actualizados_cant : Nat := 0
  datasets_desactualizados_cant : Nat := 0
  datasets_actualizados_pct : ℚ := 0
  campos_recomendados_pct : ℚ := 0
  campos_optativos_pct : ℚ := 0
  datasets_federados_cant : Nat := 0
  datasets_no_federados_cant : Nat := 0
  datasets_federados_pct : ℚ := 0
deriving DecidableEq

/-- Modelled from the spec: `helpers.add_dicts` is not under `src/`.
Additive indicators are summed key by key — including the percentage
keys, whose summed values are meaningless until
`_network_indicator_percentages` recomputes them. -/
def IndicatorRecord.add (a b : IndicatorRecord) : IndicatorRecord :=
  ⟨a.datasets_cant + b.datasets_cant,
   a.datasets_meta_ok_cant + b.datasets_meta_ok_cant,
   a.datasets_meta_error_cant + b.datasets_meta_error_cant,
   a.datasets_meta_ok_pct + b.datasets_meta_ok_pct,
   a.datasets_actualizados_cant + b.datasets_actualizados_cant,
   a.datasets_desactualizados_cant + b.datasets_desactualizados_cant,
   a.datasets_actualizados_pct + b.datasets_actualizados_pct,
   a.campos_recomendados_pct + b.campos_recomendados_pct,
   a.campos_optativos_pct + b.campos_optativos_pct,
   a.datasets_federados_cant + b.datasets_federados_cant,
   a.datasets_no_federados_cant + b.datasets_no_federados_cant,
   a.datasets_federados_pct + b.datasets_federados_pct⟩

/-- `_network_indicator_percentages`: recompute the guarded meta-ok and
actualizados percentages, recompute the recommended/optional field
percentages with an unguarded division (`none` on a zero total, embedding
`ZeroDivisionError`; the `if fields:` test in the source is true whenever
at least one catalog was processed, since the tally dict always carries
its six keys), and overwrite the federation percentage only when at least
one of the two counts is nonzero — otherwise the summed value is kept. -/
def network_pct_update (fields : KeyCount) (n : IndicatorRecord) : IndicatorRecord :=
  let meta := n.datasets_meta_ok_cant + n.datasets_meta_error_cant
  let total_pct : ℚ := if meta = 0 then 0 else 100 * (n.datasets_meta_ok_cant : ℚ) / (meta : ℚ)
  let act := n.datasets_actualizados_cant + n.datasets_desactualizados_cant
  let updated_pct : ℚ := if act = 0 then 0 else 100 * (n.datasets_actualizados_cant : ℚ) / (act : ℚ)
  let fed := n.datasets_federados_cant + n.datasets_no_federados_cant
  { n with
    datasets_meta_ok_pct := round2 total_pct,
    campos_recomendados_pct :=
      round2 (100 * (fields.recomendado : ℚ) / (fields.total_recomendado : ℚ)),
    campos_optativos_pct :=
      round2 (100 * (fields.optativo : ℚ) / (fields.total_optativo : ℚ)),
    datasets_actualizados_pct := round2 updated_pct,
    datasets_federados_pct :=
      if fed = 0 then n.datasets_federados_pct
      else round2 (100 * (n.datasets_federados_cant : ℚ) / (fed : ℚ)) }

def network_indicator_percentages (fields : KeyCount) (n : IndicatorRecord) :
    Option IndicatorRecord :=
  if fields.total_recomendado = 0 then none
  else if fields.total_optativo = 0 then none
  else some (network_pct_update fields n)

/-- The network-wide fold of `generate_catalogs_indicators`: start from
the first per-catalog record (`indicators_list[0]`, an `IndexError` on an
empty list, embedded as `none`), sum the rest key by key, then let
`_network_indicator_percentages` recompute the ratios.  The separate
`catalogos_cant` key does not interact with any percentage and is
omitted. -/
def network_indicators (fields : KeyCount) (per_catalog : List IndicatorRecord) :
    Option IndicatorRecord :=
  match per_catalog with
  | [] => none
  | r :: rest => network_indicator_percentages fields (rest.foldl IndicatorRecord.add r)

/-! ### Bulk Removal Planner (`remove_datasets_from_ckan`) -/

/-- The remote registry's paginated search, abstracted: a stable reported
total count and the identifier page returned for each `start` offset. -/
structure SearchPortal where
  count : Nat
  page : Nat → List String

/-- The pagination loop: after the initial page at offset 0, fetch pages
at 500, 1000, ... while the reported count exceeds the next offset. -/
def collect_org_pages (portal : SearchPortal) (start : Nat) : List String :=
  if portal.count > start then portal.page start ++ collect_org_pages portal (start + 500)
  else []
termination_by portal.count - start
decreasing_by simp_wf; omega

/-- All identifiers accumulated from the organization search. -/
def org_identifiers (portal : SearchPortal) : List String :=
  portal.page 0 ++ collect_org_pages portal 500

/-- `remove_datasets_from_ckan` reduced to the purge list it issues:
`datajson_filters` is the truthiness of `filter_in or filter_out or
only_time_series`, `filter_ids` the identifiers the search collaborator
returns for them, `organization` the truthiness of the organization
argument.  When both sources are active the source takes
`set(identifiers).intersection(set(org_identifiers))` and purges each
element of that set once; set iteration is embedded as a deduplicated
filtered list. -/
def remove_datasets_from_ckan (datajson_filters : Bool) (filter_ids : List String)
    (organization : Bool) (portal : SearchPortal) : List String :=
  let identifiers := if datajson_filters then filter_ids else []
  if organization then
    let org_ids := org_identifiers portal
    if datajson_filters then (identifiers.filter (fun i => decide (i ∈ org_ids))).dedup
    else org_ids
  else identifiers


/-! ### Concrete instances used by the claims -/

/-- A dataset with two distributions; equal to `c10_other` on every
default dataset field and, pairwise up to the shorter distribution list,
on the configured `format` field. -/
def c10_dataset : Value :=
  .obj [("title", .str "t"), ("publisher", .obj [("name", .str "p")]),
        ("distribution", .arr [.obj [("format", .str "CSV")], .obj [("format", .str "XLS")]])]

/-- Like `c10_dataset` but with only the first distribution. -/
def c10_other : Value :=
  .obj [("title", .str "t"), ("publisher", .obj [("name", .str "p")]),
        ("distribution", .arr [.obj [("format", .str "CSV")]])]

/-- A catalog whose only resolvable date is its own `modified`, equal to
the evaluation date (0 days ago). -/
def c5_today_catalog : FCatalog := { modified := some 100 }

/-- Two datasets: one with periodicity `eventual` (classified current),
one with no periodicity at all (excluded from the tally). -/
def c3_catalog : FCatalog :=
  { dataset := [{ accrualPeriodicity := some "eventual" }, {}] }

/-- A schema with a single nested leaf. -/
def c2_schema : List (String × FieldRule) := [("a", .nested [("b", .leaf .requerido)])]

/-- A record resolving the nested key to a two-element sequence. -/
def c2_seq_record : Value := .obj [("a", .arr [.obj [], .obj []])]

/-- A record resolving the nested key to a mapping. -/
def c2_flat_record : Value := .obj [("a", .obj [("b", .str "x")])]

/-- A dataset carrying the default identity fields and a publisher. -/
def c7_dataset : Value :=
  .obj [("title", .str "t"), ("publisher", .obj [("name", .str "p")])]

/-- A tally in which every counter is 1. -/
def c1_fields : KeyCount := ⟨1, 1, 1, 1, 1, 1⟩

/-- Catalog record: 10 datasets, 5 of 10 metadata-ok (50%). -/
def c1_record_A : IndicatorRecord :=
  { datasets_cant := 10, datasets_meta_ok_cant := 5, datasets_meta_error_cant := 5,
    datasets_meta_ok_pct := 50 }

/-- Catalog record: 90 datasets, 81 of 90 metadata-ok (90%). -/
def c1_record_B : IndicatorRecord :=
  { datasets_cant := 90, datasets_meta_ok_cant := 81, datasets_meta_error_cant := 9,
    datasets_meta_ok_pct := 90 }

/-- Catalog record: 10 datasets, 5 of 10 metadata-ok (50%). -/
def c1_record_C : IndicatorRecord :=
  { datasets_cant := 10, datasets_meta_ok_cant := 5, datasets_meta_error_cant := 5,
    datasets_meta_ok_pct := 50 }

/-- Catalog record: 90 datasets, 45 of 90 metadata-ok (also 50%). -/
def c1_record_D : IndicatorRecord :=
  { datasets_cant := 90, datasets_meta_ok_cant := 45, datasets_meta_error_cant := 45,
    datasets_meta_ok_pct := 50 }

/-! ## Shared lemmas -/

/-- Evaluation rule for `round2` at a concrete rational: exhibit the
integer the scaled value floors to. -/
theorem round2_eval (q : ℚ) (z : ℤ) (h1 : (z : ℚ) ≤ q * 100 + 1 / 2)
    (h2 : q * 100 + 1 / 2 < z + 1) : round2 q = (z : ℚ) / 100 := by
  rw [round2, Int.floor_eq_iff.mpr ⟨h1, h2⟩]

theorem round2_zero : round2 0 = 0 := by
  rw [round2_eval 0 0 (by norm_num) (by norm_num)]
  norm_num

theorem round2_hundred : round2 100 = 100 := by
  rw [round2_eval 100 10000 (by norm_num) (by norm_num)]
  norm_num

/-- The match flag accumulated by the dataset-field comparison loop is the
conjunction of the individual field equalities. -/
theorem fields_fold_fst (mkLoc : FieldSel → DiffLoc) (a b : Value) :
    ∀ (fs : List FieldSel) (acc : Bool × List DiffEntry),
      (fs.foldl (fields_step mkLoc a b) acc).1 =
        (acc.1 && fs.all (fun f => decide (field_value a f = field_value b f))) := by
  intro fs
  induction fs with
  | nil => intro acc; simp
  | cons f fs ih =>
      intro acc
      by_cases h : field_value a f = field_value b f <;>
        simp [List.foldl_cons, fields_step, h, ih]

/-- Deciding a `Value` equality in either orientation gives the same
boolean. -/
theorem decide_value_eq_swap (x y : Value) : decide (x = y) = decide (y = x) :=
  decide_eq_decide.mpr eq_comm

/-! ## C8 — the default equality-only matcher is symmetric -/

/-- Claim C8: for all dataset records `a` and `b`, the matcher in its
equality-only default configuration (fields `title` and `publisher.name`,
no distribution fields, no diff) is symmetric:
`datasets_equal a b = datasets_equal b a`. -/
theorem claim_C8 (a b : Value) : datasets_equal a b = datasets_equal b a := by
  unfold datasets_equal
  rw [fields_fold_fst, fields_fold_fst]
  simp only [Bool.true_and, default_fields_dataset, List.all_cons, List.all_nil]
  rw [decide_value_eq_swap (field_value a (FieldSel.key "title")),
    decide_value_eq_swap (field_value a (FieldSel.path [PathKey.str "publisher", PathKey.str "name"]))]

/-! ## C10 — an empty diff does not imply a match -/

/-- Claim C10: there are dataset pairs — equal on every configured dataset
field, with distribution sequences of different lengths that agree
pairwise on the configured distribution fields up to the shorter length —
for which `return_diff=True` yields the empty diff list while
`return_diff=False` yields `False`: the length mismatch flips the match
result without appending any diff entry. -/
theorem claim_C10 :
    datasets_equal_diff c10_dataset c10_other default_fields_dataset [FieldSel.key "format"] =
      some [] ∧
    datasets_equal_matches c10_dataset c10_other default_fields_dataset [FieldSel.key "format"] =
      some false := by
  constructor <;> decide

/-! ## C5 — a catalog updated today yields None -/

/-- Claim C5 (code bug): the source returns `None` for a catalog whose
most recent resolvable date is today, because a running value of `0` days
is Python-falsy; the spec model resolves the same catalog to 0 days. -/
theorem claim_C5 :
    catalogo_ultima_actualizacion_dias 100 c5_today_catalog = none ∧
    spec_last_update_days 100 c5_today_catalog = some 0 := by
  constructor <;> decide

/-! ## C4 — the recommended/optional percentages do not guard their
denominator -/

/-- Claim C4 (code bug): against an empty field-requirement schema every
tally is zero, and both the per-catalog and the network-wide
recommended/optional percentage computations divide by the zero
`total_recomendado` unguarded — a `ZeroDivisionError` (`none`) instead of
the 0 the spec requires. -/
theorem claim_C4 (d : Value) (n : IndicatorRecord) :
    count_fields_recursive d [] = {} ∧
    catalog_fields_pcts (count_fields_recursive d []) = none ∧
    network_indicator_percentages (count_fields_recursive d []) n = none := by
  have h : count_fields_recursive d [] = {} := by simp [count_fields_recursive]
  refine ⟨h, ?_, ?_⟩ <;> rw [h] <;> rfl

/-! ## C6 — the removal planner's set algebra -/

/-- Claim C6: with both the catalog-content filter source and the
organization source active, the purge set is exactly the intersection of
the two identifier sets and each identifier is purged at most once; with
exactly one source active, the purge list is that source's identifiers
alone; with no filter at all, no purge call is issued.  The last conjunct
is the spec's worked example: filter identifiers `a, b` against an
organization search resolving to `b, c` purges exactly `b`, once. -/
theorem claim_C6 (filter_ids : List String) (portal : SearchPortal) :
    (remove_datasets_from_ckan true filter_ids true portal).toFinset =
      filter_ids.toFinset ∩ (org_identifiers portal).toFinset ∧
    (remove_datasets_from_ckan true filter_ids true portal).Nodup ∧
    remove_datasets_from_ckan true filter_ids false portal = filter_ids ∧
    remove_datasets_from_ckan false filter_ids true portal = org_identifiers portal ∧
    remove_datasets_from_ckan false filter_ids false portal = [] ∧
    remove_datasets_from_ckan true ["a", "b"] true
      ⟨2, fun s => if s = 0 then ["b", "c"] else []⟩ = ["b"] := by
  refine ⟨?_, ?_, rfl, rfl, rfl, ?_⟩
  · ext x
    simp [remove_datasets_from_ckan, List.mem_filter]
  · exact (List.nodup_dedup _)
  · simp [remove_datasets_from_ckan, org_identifiers, collect_org_pages, List.filter, List.dedup]

/-! ## C9 — the deletion-detection pre-filter is not total -/

/-- A local dataset without a `publisher` key makes the comprehension over
the local catalog raise `KeyError`. -/
theorem publisher_names_eq_none (l : List Value)
    (h : ∃ d ∈ l, d.getKey "publisher" = none) : publisher_names l = none := by
  induction l with
  | nil => simp at h
  | cons x xs ih =>
      show (do
        let names ← publisher_names xs
        let pub ← x.getKey "publisher"
        match publisher_name_of pub with
        | some (some nv) => pure (nv :: names)
        | some none => pure names
        | none => none) = none
      rcases h with ⟨d, hd, hpub⟩
      rcases List.mem_cons.mp hd with rfl | hmem
      · cases hx : publisher_names xs <;> simp [hx, hpub]
      · rw [ih ⟨d, hmem, hpub⟩]
        rfl

/-- A central dataset without a `publisher` key makes the filter loop over
central datasets raise `KeyError`. -/
theorem filter_central_fold_eq_none (names : List Value) (central : List Value)
    (h : ∃ c ∈ central, c.getKey "publisher" = none) :
    filter_central_fold names central = none := by
  induction central with
  | nil => simp at h
  | cons x xs ih =>
      show (do
        let l ← filter_central_fold names xs
        let pub ← x.getKey "publisher"
        match publisher_name_of pub with
        | some (some nv) => if nv ∈ names then pure (x :: l) else pure l
        | some none => pure l
        | none => none) = none
      rcases h with ⟨c, hc, hpub⟩
      rcases List.mem_cons.mp hc with rfl | hmem
      · cases hx : filter_central_fold names xs <;> simp [hx, hpub]
      · rw [ih ⟨c, hmem, hpub⟩]
        rfl

/-- Claim C9: the deletion-detection pre-filter subscripts `["publisher"]`
unconditionally on both its inputs, so a dataset without a `publisher` key
— on the local side or on the central side — raises `KeyError` instead of
being treated as having no publisher, and the federation indicators fail
for such catalogs rather than yielding a result. -/
theorem claim_C9 (catalog central : List Value)
    (h : (∃ d ∈ catalog, d.getKey "publisher" = none) ∨
         (∃ d ∈ central, d.getKey "publisher" = none)) :
    filter_by_likely_publisher central catalog = none ∧
    federation_indicators catalog central = none := by
  have hf : filter_by_likely_publisher central catalog = none := by
    rcases h with h | h
    · unfold filter_by_likely_publisher
      rw [publisher_names_eq_none catalog h]
      rfl
    · unfold filter_by_likely_publisher
      cases hn : publisher_names catalog with
      | none => rfl
      | some ns => simpa using filter_central_fold_eq_none ns central h
  refine ⟨hf, ?_⟩
  unfold federation_indicators
  rw [hf]

/-- Witness for C9: a one-dataset local catalog whose dataset is the empty
mapping (no `publisher` key). -/
theorem claim_C9_witness :
    filter_by_likely_publisher [] [Value.obj []] = none ∧
    federation_indicators [Value.obj []] [] = none :=
  claim_C9 [Value.obj []] [] (Or.inl ⟨Value.obj [], by simp, rfl⟩)

/-! ## C3 — the freshness percentage's denominator and rounding -/

/-- Counterexample to claim C3: the source divides by the total dataset
count (2), not by the count of datasets with a periodicity (1), and it
rounds the ratio before scaling by 100; the claimed formula gives 100
where the source computes 50. -/
theorem claim_C3_counterexample :
    (generate_date_indicators 0 (1/5) (fun _ => 0) c3_catalog).datasets_actualizados_pct = 50 ∧
    spec_datasets_actualizados_pct 0 (1/5) (fun _ => 0) c3_catalog = 100 ∧
    (50 : ℚ) ≠ 100 := by
  refine ⟨?_, ?_, by norm_num⟩
  · have h : (generate_date_indicators 0 (1/5) (fun _ => 0) c3_catalog).datasets_actualizados_pct
        = 100 * round2 (1 / 2) := by
      simp [generate_date_indicators, date_classify, c3_catalog, bump]
    rw [h, round2_eval (1/2) 50 (by norm_num) (by norm_num)]
    norm_num
  · have h : spec_datasets_actualizados_pct 0 (1/5) (fun _ => 0) c3_catalog
        = round2 (100 * (1 : ℚ) / 1) := by
      simp [spec_datasets_actualizados_pct, date_classify, c3_catalog, bump, List.filter]
    rw [h]
    norm_num [round2_hundred]

/-- Claim C3 as the source computes it: `datasets_actualizados_pct` is 100
times the two-decimal rounding of actualizados over the total dataset
count, and 0 for a catalog with no datasets at all. -/
theorem claim_C3 (now : Int) (tolerance : ℚ) (pint : String → ℚ) (catalog : FCatalog) :
    (generate_date_indicators now tolerance pint catalog).datasets_actualizados_pct =
      100 * round2 (if catalog.dataset.length = 0 then 0
        else ((date_classify now tolerance pint catalog.dataset).1 : ℚ) /
          (catalog.dataset.length : ℚ)) ∧
    (generate_date_indicators now tolerance pint
      { catalog with dataset := [] }).datasets_actualizados_pct = 0 := by
  constructor
  · rfl
  · show 100 * round2 _ = 0
    norm_num [generate_date_indicators, date_classify, round2_zero]

/-! ## C2 — the Field Usage Counter's totals and the record -/

theorem KeyCount.totals_add (a b : KeyCount) :
    (a.add b).totals = (a.totals.1 + b.totals.1, a.totals.2.1 + b.totals.2.1,
      a.totals.2.2 + b.totals.2.2) := rfl

/-- The `total_*` components of the leaf case never depend on the record
(only the used-field components do). -/
theorem leafCount_totals (d e : Value) (k k2 : String) (r : Requirement) :
    (leafCount d k r).totals = (leafCount e k2 r).totals := by
  cases r <;> simp only [leafCount] <;> (split <;> split <;> rfl)

/-- Main lemma for C2: whenever the record resolves no nested-schema
key to a sequence, the totals agree with the totals computed against the
empty record. -/
theorem count_fields_totals_aux :
    ∀ n : Nat, ∀ S : List (String × FieldRule), sizeOf S ≤ n →
      ∀ d : Value, seqFree d S = true →
      (count_fields_recursive d S).totals = (count_fields_recursive (Value.obj []) S).totals := by
  intro n
  induction n with
  | zero =>
      intro S hS
      exfalso
      cases S <;> simp_arith at hS
  | succ n ih =>
      intro S hS d hfree
      cases S with
      | nil => simp [count_fields_recursive]
      | cons hd tl =>
          obtain ⟨k, rule⟩ := hd
          cases rule with
          | leaf r =>
              have htl : sizeOf tl ≤ n := by simp_arith at hS; omega
              have hfree2 : seqFree d tl = true := by simpa [seqFree] using hfree
              simp only [count_fields_recursive]
              rw [KeyCount.totals_add, KeyCount.totals_add,
                leafCount_totals d (Value.obj []) k k r, ih tl htl d hfree2]
          | nested m =>
              have htl : sizeOf tl ≤ n := by simp_arith at hS; omega
              have hm : sizeOf m ≤ n := by simp_arith at hS; omega
              have hsplit : (match d.getKey k with
                  | some (.arr _) => false
                  | some (.obj kvs) => seqFree (.obj kvs) m
                  | _ => true) = true ∧ seqFree d tl = true := by
                simpa [seqFree, Bool.and_eq_true] using hfree
              have hrhs : elementsAt (Value.obj []) k = [Value.obj []] := by
                simp [elementsAt, Value.getKey]
              have h1 : (countElems (elementsAt d k) m).totals =
                  (countElems (elementsAt (Value.obj []) k) m).totals := by
                cases hk : d.getKey k with
                | none =>
                    have he : elementsAt d k = [Value.obj []] := by simp [elementsAt, hk]
                    rw [he, hrhs]
                | some v =>
                    cases v with
                    | null =>
                        have he : elementsAt d k = [Value.obj []] := by simp [elementsAt, hk]
                        rw [he, hrhs]
                    | str s =>
                        have he : elementsAt d k = [Value.obj []] := by simp [elementsAt, hk]
                        rw [he, hrhs]
                    | int z =>
                        have he : elementsAt d k = [Value.obj []] := by simp [elementsAt, hk]
                        rw [he, hrhs]
                    | arr xs =>
                        exfalso
                        have hbad := hsplit.1
                        rw [hk] at hbad
                        simp at hbad
                    | obj kvs =>
                        have he : elementsAt d k = [Value.obj kvs] := by simp [elementsAt, hk]
                        have hsf : seqFree (Value.obj kvs) m = true := by
                          have hx := hsplit.1
                          rw [hk] at hx
                          simpa using hx
                        rw [he, hrhs]
                        simp only [countElems]
                        rw [KeyCount.totals_add, KeyCount.totals_add,
                          ih m hm (Value.obj kvs) hsf]
              simp only [count_fields_recursive]
              rw [KeyCount.totals_add, KeyCount.totals_add, h1, ih tl htl d hsplit.2]

/-- Claim C2, amended: the `total_*` counters are independent of the
record for all records that resolve no nested-schema key to a sequence
(a sequence of length n multiplies its nested totals by n, which is what
the counterexample exhibits). -/
theorem claim_C2 (S : List (String × FieldRule)) (R1 R2 : Value)
    (h1 : seqFree R1 S = true) (h2 : seqFree R2 S = true) :
    (count_fields_recursive R1 S).totals = (count_fields_recursive R2 S).totals :=
  (count_fields_totals_aux (sizeOf S) S le_rfl R1 h1).trans
    (count_fields_totals_aux (sizeOf S) S le_rfl R2 h2).symm

/-- Counterexample to claim C2 as stated: when a schema key resolves to a
sequence in the record, the totals do depend on the record — a
two-element sequence doubles `total_requerido` relative to the empty
record. -/
theorem claim_C2_counterexample :
    (count_fields_recursive c2_seq_record c2_schema).totals ≠
      (count_fields_recursive (Value.obj []) c2_schema).totals ∧
    (count_fields_recursive c2_seq_record c2_schema).total_requerido = 2 ∧
    (count_fields_recursive (Value.obj []) c2_schema).total_requerido = 1 := by
  have e1 : count_fields_recursive c2_seq_record c2_schema = { total_requerido := 2 } := by
    simp [c2_schema, c2_seq_record, count_fields_recursive, countElems, elementsAt,
      leafCount, Value.getKey, Value.hasKey, KeyCount.add]
  have e2 : count_fields_recursive (Value.obj []) c2_schema = { total_requerido := 1 } := by
    simp [c2_schema, count_fields_recursive, countElems, elementsAt, leafCount,
      Value.getKey, Value.hasKey, KeyCount.add]
  rw [e1, e2]
  refine ⟨by decide, rfl, rfl⟩

/-- Witness for C2: two sequence-free records — one resolving the nested
key to a mapping, one empty — give the same totals on `c2_schema`. -/
theorem claim_C2_witness :
    seqFree c2_flat_record c2_schema = true ∧ seqFree (Value.obj []) c2_schema = true ∧
    (count_fields_recursive c2_flat_record c2_schema).totals =
      (count_fields_recursive (Value.obj []) c2_schema).totals := by
  have ha : seqFree c2_flat_record c2_schema = true := by
    simp [seqFree, c2_schema, c2_flat_record, Value.getKey]
  have hb : seqFree (Value.obj []) c2_schema = true := by
    simp [seqFree, c2_schema, Value.getKey]
  exact ⟨ha, hb, claim_C2 c2_schema c2_flat_record (Value.obj []) ha hb⟩

/-! ## C7 — the Federation Reconciler on fully-federated catalogs -/

/-- A Boolean filter and its negation partition the list's length. -/
theorem filter_length_split {α : Type} (p : α → Bool) (l : List α) :
    (l.filter p).length + (l.filter (fun a => !(p a))).length = l.length := by
  induction l with
  | nil => rfl
  | cons x xs ih =>
      by_cases h : p x <;> simp [List.filter_cons, h] <;> omega

/-- Guarded percentages in the source round after the zero test; in the
statements the rounding sits inside the else branch. -/
theorem round2_ite (c : Prop) [Decidable c] (x : ℚ) :
    round2 (if c then 0 else x) = if c then 0 else round2 x := by
  split
  · exact round2_zero
  · rfl

/-- A record whose publisher is a mapping resolves it as `some (.obj kvs)`. -/
theorem has_publisher_mapping_obj (x : Value) (hx : has_publisher_mapping x = true) :
    ∃ kvs, x.getKey "publisher" = some (.obj kvs) := by
  unfold has_publisher_mapping at hx
  revert hx
  cases hp : x.getKey "publisher" with
  | none => intro hx; exact Bool.noConfusion hx
  | some v =>
      cases v with
      | obj kvs => intro _; exact ⟨kvs, rfl⟩
      | null => intro hx; exact Bool.noConfusion hx
      | str s => intro hx; exact Bool.noConfusion hx
      | int n => intro hx; exact Bool.noConfusion hx
      | arr a => intro hx; exact Bool.noConfusion hx

/-- When every local dataset's publisher is a mapping, the name
comprehension succeeds. -/
theorem publisher_names_isSome (l : List Value)
    (h : ∀ d ∈ l, has_publisher_mapping d = true) :
    ∃ ns, publisher_names l = some ns := by
  induction l with
  | nil => exact ⟨[], rfl⟩
  | cons x xs ih =>
      obtain ⟨ns, hns⟩ := ih (fun d hd => h d (List.mem_cons_of_mem x hd))
      obtain ⟨kvs, hkvs⟩ := has_publisher_mapping_obj x (h x (List.mem_cons_self x xs))
      have hshow : publisher_names (x :: xs) = (do
          let names ← publisher_names xs
          let pub ← x.getKey "publisher"
          match publisher_name_of pub with
          | some (some nv) => pure (nv :: names)
          | some none => pure names
          | none => none) := rfl
      rw [hshow, hns, hkvs]
      show ∃ ns2, (match publisher_name_of (Value.obj kvs) with
        | some (some nv) => some (nv :: ns)
        | some none => some ns
        | none => none) = some ns2
      cases hn : (Value.obj kvs).getKey "name" <;> simp [publisher_name_of, hn]

/-- When every central dataset's publisher is a mapping, the filter loop
succeeds. -/
theorem filter_central_fold_isSome (names : List Value) (central : List Value)
    (h : ∀ d ∈ central, has_publisher_mapping d = true) :
    ∃ fc, filter_central_fold names central = some fc := by
  induction central with
  | nil => exact ⟨[], rfl⟩
  | cons x xs ih =>
      obtain ⟨fc, hfc⟩ := ih (fun d hd => h d (List.mem_cons_of_mem x hd))
      obtain ⟨kvs, hkvs⟩ := has_publisher_mapping_obj x (h x (List.mem_cons_self x xs))
      have hshow : filter_central_fold names (x :: xs) = (do
          let l ← filter_central_fold names xs
          let pub ← x.getKey "publisher"
          match publisher_name_of pub with
          | some (some nv) => if nv ∈ names then pure (x :: l) else pure l
          | some none => pure l
          | none => none) := rfl
      rw [hshow, hfc, hkvs]
      show ∃ fc2, (match publisher_name_of (Value.obj kvs) with
        | some (some nv) => if nv ∈ names then some (x :: fc) else some fc
        | some none => some fc
        | none => none) = some fc2
      cases hn : (Value.obj kvs).getKey "name" with
      | none => simp [publisher_name_of, hn]
      | some nv => by_cases hmem : nv ∈ names <;> simp [publisher_name_of, hn, hmem]

/-- Claim C7, amended: on catalogs whose datasets' `publisher` values are
all present mappings (so the deletion pre-filter raises neither
`KeyError` nor `TypeError`) the reconciler yields a record whose forward
counts partition the local catalog, whose percentage is federados over
(federados + no federados) times 100 — 0 when both are 0 — and which,
for a nonempty local catalog fully contained in the central catalog by
the default identity fields, has `datasets_no_federados_cant = 0` and
`datasets_federados_pct = 100`. -/
theorem claim_C7 (catalog central : List Value)
    (hc : ∀ d ∈ catalog, has_publisher_mapping d = true)
    (hz : ∀ d ∈ central, has_publisher_mapping d = true) :
    ∃ r, federation_indicators catalog central = some r ∧
      r.datasets_federados_cant + r.datasets_no_federados_cant = catalog.length ∧
      r.datasets_federados_pct =
        (if r.datasets_federados_cant + r.datasets_no_federados_cant = 0 then 0
         else round2 (100 * (r.datasets_federados_cant : ℚ) /
           ((r.datasets_federados_cant : ℚ) + (r.datasets_no_federados_cant : ℚ)))) ∧
      (catalog ≠ [] → (∀ d ∈ catalog, ∃ c ∈ central, datasets_equal d c = true) →
        r.datasets_no_federados_cant = 0 ∧ r.datasets_federados_pct = 100) := by
  obtain ⟨ns, hns⟩ := publisher_names_isSome catalog hc
  obtain ⟨fc, hfc⟩ := filter_central_fold_isSome ns central hz
  have hfilter : filter_by_likely_publisher central catalog = some fc := by
    unfold filter_by_likely_publisher
    rw [hns]
    exact hfc
  unfold federation_indicators
  rw [hfilter]
  refine ⟨_, rfl, ?_, ?_, ?_⟩
  · exact filter_length_split _ catalog
  · exact round2_ite _ _
  · intro hne hcont
    have hnofed : catalog.filter (fun d => !(central.any (fun c => datasets_equal d c))) = [] := by
      rw [List.filter_eq_nil_iff]
      intro d hd
      have hany : central.any (fun c => datasets_equal d c) = true :=
        List.any_eq_true.mpr ((hcont d hd).imp (fun c hc2 => hc2))
      simp [hany]
    have hfed : (catalog.filter (fun d => central.any (fun c => datasets_equal d c))).length =
        catalog.length := by
      have hsplit := filter_length_split (fun d => central.any (fun c => datasets_equal d c)) catalog
      rw [hnofed] at hsplit
      simpa using hsplit
    have hlen : catalog.length ≠ 0 := fun h0 => hne (List.length_eq_zero.mp h0)
    constructor
    · rw [hnofed]
      rfl
    · rw [hnofed, hfed]
      simp only [List.length_nil, Nat.add_zero, Nat.cast_zero, add_zero]
      rw [if_neg hlen, mul_div_assoc, div_self (Nat.cast_ne_zero.mpr hlen), mul_one]
      exact round2_hundred

/-- Witness for C7: a one-dataset catalog federated against itself. -/
theorem claim_C7_witness :
    ∃ r, federation_indicators [c7_dataset] [c7_dataset] = some r ∧
      r.datasets_federados_cant + r.datasets_no_federados_cant = [c7_dataset].length ∧
      r.datasets_federados_pct =
        (if r.datasets_federados_cant + r.datasets_no_federados_cant = 0 then 0
         else round2 (100 * (r.datasets_federados_cant : ℚ) /
           ((r.datasets_federados_cant : ℚ) + (r.datasets_no_federados_cant : ℚ)))) ∧
      ([c7_dataset] ≠ [] →
        (∀ d ∈ [c7_dataset], ∃ c ∈ [c7_dataset], datasets_equal d c = true) →
        r.datasets_no_federados_cant = 0 ∧ r.datasets_federados_pct = 100) :=
  claim_C7 [c7_dataset] [c7_dataset] (by decide) (by decide)

/-- Counterexample to claim C7 as stated: the empty local catalog
satisfies the containment hypothesis vacuously, yet the source computes
`datasets_federados_pct = 0`, not 100. -/
theorem claim_C7_counterexample :
    (∀ d ∈ ([] : List Value), ∃ c ∈ ([] : List Value), datasets_equal d c = true) ∧
    ∃ r, federation_indicators [] [] = some r ∧
      r.datasets_no_federados_cant = 0 ∧
      r.datasets_federados_pct = 0 ∧ r.datasets_federados_pct ≠ 100 := by
  refine ⟨by simp, ?_⟩
  have h0 : federation_indicators [] [] =
      some { datasets_federados_cant := 0, datasets_no_federados_cant := 0,
             datasets_federados_eliminados_cant := 0, datasets_federados_eliminados := [],
             datasets_no_federados := [], datasets_federados := [],
             datasets_federados_pct := round2 0 } := rfl
  refine ⟨_, h0, rfl, ?_, ?_⟩
  · show round2 0 = 0
    exact round2_zero
  · show round2 0 ≠ 100
    rw [round2_zero]
    norm_num

/-! ## C1 — network percentages are recomputed, not summed or averaged -/

/-- Folding `IndicatorRecord.add` from the first record evaluates any
additive projection to the sum over the whole list. -/
theorem foldl_record_add {M : Type} [AddCommMonoid M] (f : IndicatorRecord → M)
    (hf : ∀ a b : IndicatorRecord, f (a.add b) = f a + f b) :
    ∀ (rest : List IndicatorRecord) (r : IndicatorRecord),
      f (List.foldl IndicatorRecord.add r rest) = f r + (rest.map f).sum := by
  intro rest
  induction rest with
  | nil => intro r; simp
  | cons x xs ih =>
      intro r
      simp only [List.foldl_cons, List.map_cons, List.sum_cons]
      rw [ih, hf, add_assoc]

/-- The meta-ok instance used for the concrete divergence computations:
the network percentage on two records. -/
theorem network_two_meta_ok (f : KeyCount) (a b : IndicatorRecord)
    (h1 : f.total_recomendado ≠ 0) (h2 : f.total_optativo ≠ 0) :
    ∃ o, network_indicators f [a, b] = some o ∧
      o.datasets_meta_ok_pct =
        round2 (if a.datasets_meta_ok_cant + b.datasets_meta_ok_cant +
            (a.datasets_meta_error_cant + b.datasets_meta_error_cant) = 0 then 0
          else 100 * ((a.datasets_meta_ok_cant + b.datasets_meta_ok_cant : ℕ) : ℚ) /
            ((a.datasets_meta_ok_cant + b.datasets_meta_ok_cant +
              (a.datasets_meta_error_cant + b.datasets_meta_error_cant) : ℕ) : ℚ)) := by
  simp only [network_indicators]
  unfold network_indicator_percentages
  rw [if_neg h1, if_neg h2]
  exact ⟨_, rfl, rfl⟩

/-- Claim C1, amended: in the network fold every ratio indicator of the
result is the percentage recomputed from the summed numerators and
denominators — never the summed or averaged per-catalog percentages, with
the one degenerate exception of an all-zero federation column, where the
kept value (the sum of per-catalog percentages, each 0) equals the
recomputed 0.  For two catalogs with equal per-catalog percentages the
recomputed network value coincides with the naive average, so forcing a
divergence from the naive average needs unequal per-catalog percentages:
with 5/10 (50%) against 81/90 (90%) the network percentage is 86, not the
naive average 70 — the final conjunct. -/
theorem claim_C1 (fields : KeyCount) (r : IndicatorRecord) (rest : List IndicatorRecord)
    (hrec : fields.total_recomendado ≠ 0) (hopt : fields.total_optativo ≠ 0)
    (hfed : ∀ x ∈ r :: rest, x.datasets_federados_cant = 0 →
      x.datasets_no_federados_cant = 0 → x.datasets_federados_pct = 0) :
    ∃ out, network_indicators fields (r :: rest) = some out ∧
      out.datasets_meta_ok_pct =
        (if ((r :: rest).map (fun x => x.datasets_meta_ok_cant)).sum +
            ((r :: rest).map (fun x => x.datasets_meta_error_cant)).sum = 0 then 0
         else round2 (100 * ((((r :: rest).map (fun x => x.datasets_meta_ok_cant)).sum : ℕ) : ℚ) /
           ((((r :: rest).map (fun x => x.datasets_meta_ok_cant)).sum +
             ((r :: rest).map (fun x => x.datasets_meta_error_cant)).sum : ℕ) : ℚ))) ∧
      out.campos_recomendados_pct =
        round2 (100 * (fields.recomendado : ℚ) / (fields.total_recomendado : ℚ)) ∧
      out.campos_optativos_pct =
        round2 (100 * (fields.optativo : ℚ) / (fields.total_optativo : ℚ)) ∧
      out.datasets_actualizados_pct =
        (if ((r :: rest).map (fun x => x.datasets_actualizados_cant)).sum +
            ((r :: rest).map (fun x => x.datasets_desactualizados_cant)).sum = 0 then 0
         else round2
           (100 * ((((r :: rest).map (fun x => x.datasets_actualizados_cant)).sum : ℕ) : ℚ) /
           ((((r :: rest).map (fun x => x.datasets_actualizados_cant)).sum +
             ((r :: rest).map (fun x => x.datasets_desactualizados_cant)).sum : ℕ) : ℚ))) ∧
      out.datasets_federados_pct =
        (if ((r :: rest).map (fun x => x.datasets_federados_cant)).sum +
            ((r :: rest).map (fun x => x.datasets_no_federados_cant)).sum = 0 then 0
         else round2
           (100 * ((((r :: rest).map (fun x => x.datasets_federados_cant)).sum : ℕ) : ℚ) /
           ((((r :: rest).map (fun x => x.datasets_federados_cant)).sum +
             ((r :: rest).map (fun x => x.datasets_no_federados_cant)).sum : ℕ) : ℚ))) ∧
      (∃ o, network_indicators c1_fields [c1_record_A, c1_record_B] = some o ∧
        o.datasets_meta_ok_pct = 86 ∧
        (c1_record_A.datasets_meta_ok_pct + c1_record_B.datasets_meta_ok_pct) / 2 = 70 ∧
        o.datasets_meta_ok_pct ≠
          (c1_record_A.datasets_meta_ok_pct + c1_record_B.datasets_meta_ok_pct) / 2 ∧
        c1_record_A.datasets_cant ≠ c1_record_B.datasets_cant) := by
  have hok := foldl_record_add (fun x => x.datasets_meta_ok_cant) (fun a b => rfl) rest r
  have herr := foldl_record_add (fun x => x.datasets_meta_error_cant) (fun a b => rfl) rest r
  have hact := foldl_record_add (fun x => x.datasets_actualizados_cant) (fun a b => rfl) rest r
  have hdes := foldl_record_add (fun x => x.datasets_desactualizados_cant) (fun a b => rfl) rest r
  have hfedc := foldl_record_add (fun x => x.datasets_federados_cant) (fun a b => rfl) rest r
  have hnofedc := foldl_record_add (fun x => x.datasets_no_federados_cant) (fun a b => rfl) rest r
  have hfedpct := foldl_record_add (M := ℚ) (fun x => x.datasets_federados_pct)
    (fun a b => rfl) rest r
  refine ⟨network_pct_update fields (List.foldl IndicatorRecord.add r rest),
    ?_, ?_, rfl, rfl, ?_, ?_, ?_⟩
  · show network_indicator_percentages fields (List.foldl IndicatorRecord.add r rest) = some _
    unfold network_indicator_percentages
    rw [if_neg hrec, if_neg hopt]
  · show round2 _ = _
    rw [round2_ite, hok, herr]
    simp only [List.map_cons, List.sum_cons]
  · show round2 _ = _
    rw [round2_ite, hact, hdes]
    simp only [List.map_cons, List.sum_cons]
  · show (if (List.foldl IndicatorRecord.add r rest).datasets_federados_cant +
        (List.foldl IndicatorRecord.add r rest).datasets_no_federados_cant = 0
      then (List.foldl IndicatorRecord.add r rest).datasets_federados_pct
      else round2 (100 *
        ((List.foldl IndicatorRecord.add r rest).datasets_federados_cant : ℚ) /
        (((List.foldl IndicatorRecord.add r rest).datasets_federados_cant +
          (List.foldl IndicatorRecord.add r rest).datasets_no_federados_cant : ℕ) : ℚ))) = _
    rw [hfedc, hnofedc]
    simp only [List.map_cons, List.sum_cons]
    by_cases hz : r.datasets_federados_cant + (rest.map (fun x => x.datasets_federados_cant)).sum
        + (r.datasets_no_federados_cant +
          (rest.map (fun x => x.datasets_no_federados_cant)).sum) = 0
    · rw [if_pos hz, if_pos hz]
      have hy1 : (rest.map (fun x => x.datasets_federados_cant)).sum = 0 := by omega
      have hy2 : (rest.map (fun x => x.datasets_no_federados_cant)).sum = 0 := by omega
      have hp0 : r.datasets_federados_pct = 0 :=
        hfed r (List.mem_cons_self r rest) (by omega) (by omega)
      have hprest : (rest.map (fun x => x.datasets_federados_pct)).sum = 0 := by
        refine List.sum_eq_zero ?_
        intro z hzmem
        obtain ⟨y, hy, rfl⟩ := List.mem_map.mp hzmem
        refine hfed y (List.mem_cons_of_mem r hy) ?_ ?_
        · exact List.sum_eq_zero_iff.mp hy1 _ (List.mem_map_of_mem _ hy)
        · exact List.sum_eq_zero_iff.mp hy2 _ (List.mem_map_of_mem _ hy)
      rw [hfedpct, hp0, hprest, add_zero]
    · rw [if_neg hz, if_neg hz]
  · obtain ⟨o, ho, hov⟩ := network_two_meta_ok c1_fields c1_record_A c1_record_B
      (by decide) (by decide)
    have h86 : o.datasets_meta_ok_pct = 86 := by
      rw [hov]
      norm_num [c1_record_A, c1_record_B]
      rw [round2_eval 86 8600 (by norm_num) (by norm_num)]
      norm_num
    refine ⟨o, ho, h86, by norm_num [c1_record_A, c1_record_B], ?_, by decide⟩
    rw [h86]
    norm_num [c1_record_A, c1_record_B]

/-- Witness for C1: the amended claim applied to the tally of ones and
the two records of the divergence instance. -/
theorem claim_C1_witness :
    ∃ out, network_indicators c1_fields [c1_record_A, c1_record_B] = some out ∧
      out.datasets_meta_ok_pct =
        (if (([c1_record_A, c1_record_B]).map (fun x => x.datasets_meta_ok_cant)).sum +
            (([c1_record_A, c1_record_B]).map (fun x => x.datasets_meta_error_cant)).sum = 0
         then 0
         else round2 (100 *
           (((([c1_record_A, c1_record_B]).map (fun x => x.datasets_meta_ok_cant)).sum : ℕ) : ℚ) /
           (((([c1_record_A, c1_record_B]).map (fun x => x.datasets_meta_ok_cant)).sum +
             (([c1_record_A, c1_record_B]).map (fun x => x.datasets_meta_error_cant)).sum
             : ℕ) : ℚ))) ∧
      out.campos_recomendados_pct =
        round2 (100 * (c1_fields.recomendado : ℚ) / (c1_fields.total_recomendado : ℚ)) ∧
      out.campos_optativos_pct =
        round2 (100 * (c1_fields.optativo : ℚ) / (c1_fields.total_optativo : ℚ)) ∧
      out.datasets_actualizados_pct =
        (if (([c1_record_A, c1_record_B]).map (fun x => x.datasets_actualizados_cant)).sum +
            (([c1_record_A, c1_record_B]).map (fun x => x.datasets_desactualizados_cant)).sum = 0
         then 0
         else round2 (100 *
           (((([c1_record_A, c1_record_B]).map
             (fun x => x.datasets_actualizados_cant)).sum : ℕ) : ℚ) /
           (((([c1_record_A, c1_record_B]).map (fun x => x.datasets_actualizados_cant)).sum +
             (([c1_record_A, c1_record_B]).map (fun x => x.datasets_desactualizados_cant)).sum
             : ℕ) : ℚ))) ∧
      out.datasets_federados_pct =
        (if (([c1_record_A, c1_record_B]).map (fun x => x.datasets_federados_cant)).sum +
            (([c1_record_A, c1_record_B]).map (fun x => x.datasets_no_federados_cant)).sum = 0
         then 0
         else round2 (100 *
           (((([c1_record_A, c1_record_B]).map
             (fun x => x.datasets_federados_cant)).sum : ℕ) : ℚ) /
           (((([c1_record_A, c1_record_B]).map (fun x => x.datasets_federados_cant)).sum +
             (([c1_record_A, c1_record_B]).map (fun x => x.datasets_no_federados_cant)).sum
             : ℕ) : ℚ))) ∧
      (∃ o, network_indicators c1_fields [c1_record_A, c1_record_B] = some o ∧
        o.datasets_meta_ok_pct = 86 ∧
        (c1_record_A.datasets_meta_ok_pct + c1_record_B.datasets_meta_ok_pct) / 2 = 70 ∧
        o.datasets_meta_ok_pct ≠
          (c1_record_A.datasets_meta_ok_pct + c1_record_B.datasets_meta_ok_pct) / 2 ∧
        c1_record_A.datasets_cant ≠ c1_record_B.datasets_cant) :=
  claim_C1 c1_fields c1_record_A [c1_record_B] (by decide) (by decide)
    (by intro x hx; fin_cases hx <;> intro h1 h2 <;> rfl)

/-- Counterexample to claim C1 as stated: for two catalogs with equal
per-catalog percentages (5/10 and 45/90, both 50%) and different dataset
counts, the recomputed network percentage is exactly the naive average of
the two percentages — the claim's "never the average" rider fails on
equal-percentage inputs. -/
theorem claim_C1_counterexample :
    c1_record_C.datasets_meta_ok_pct = c1_record_D.datasets_meta_ok_pct ∧
    c1_record_C.datasets_cant ≠ c1_record_D.datasets_cant ∧
    ∃ o, network_indicators c1_fields [c1_record_C, c1_record_D] = some o ∧
      o.datasets_meta_ok_pct =
        (c1_record_C.datasets_meta_ok_pct + c1_record_D.datasets_meta_ok_pct) / 2 := by
  refine ⟨rfl, by decide, ?_⟩
  obtain ⟨o, ho, hov⟩ := network_two_meta_ok c1_fields c1_record_C c1_record_D
    (by decide) (by decide)
  refine ⟨o, ho, ?_⟩
  rw [hov]
  norm_num [c1_record_C, c1_record_D]
  rw [round2_eval 50 5000 (by norm_num) (by norm_num)]
  norm_num
